import Mathlib

/-!
Shallow embedding of the `cesium-measure` repository.

The embedded code is:
* `Measure.ts` — the measurement lifecycle state machine (`_start`, `end`,
  `destroy`, the `destroyed` getter) acting on a state made of the status
  flag, the label collection and the drawing collaborator;
* `DistanceSurfaceMeasure.ts` — the surface-distance engine
  (`_calculateSurfaceDistance`, `_calculateDetailSurfaceLength`,
  `_findWindowPositionByPixelInterval`, `getDistance`).

External collaborators (terrain picker, viewport projector, the ellipsoidal
geodesic of the rendering engine) are parameters of the embedding, bundled
in `SurfaceConfig`.  Numbers are idealised as real numbers.  The JS source
line `Math.pow(endPoint.x - startPoint.x, 2) + (endPoint.y - startPoint.y, 2)`
contains a comma expression whose value is `2`; the embedding reproduces it
faithfully.
-/

namespace CesiumMeasure

/-- Status union type of `Measure.ts`: `"INIT" | "WORKING" | "DESTROY"`. -/
inductive Status where
  | INIT
  | WORKING
  | DESTROY
deriving DecidableEq, Repr

/-- Shape kinds accepted by `Measure._start`. -/
inductive ShapeType where
  | POLYGON
  | POLYLINE
  | POINT
  | CIRCLE
  | RECTANGLE
deriving DecidableEq, Repr

/-- Observable state of the drawing collaborator (`@cesium-extends/drawer`):
`session` is the in-progress drawing session (`drawer.start` opens one,
`drawer.reset` clears it); the two counters record how many calls the
state machine has issued to the collaborator. -/
structure DrawerState where
  session : Option ShapeType
  startCalls : Nat
  resetCalls : Nat
deriving DecidableEq, Repr

/-- State owned by a `Measure` instance: the `_status` field, the number of
labels in its `LabelCollection`, the drawing collaborator, whether the mouse
tooltip has been destroyed, and whether the label collection is still among
the scene primitives. -/
structure MeasureState where
  status : Status
  labels : Nat
  drawer : DrawerState
  tooltipDestroyed : Bool
  labelsInScene : Bool
deriving DecidableEq, Repr

/-- State right after the `Measure` constructor ran: status `INIT`, empty
label collection added to the scene, drawer idle, tooltip alive. -/
def Measure.init : MeasureState :=
  { status := Status.INIT
    labels := 0
    drawer := { session := none, startCalls := 0, resetCalls := 0 }
    tooltipDestroyed := false
    labelsInScene := true }

/-- `Measure.prototype._start`: if `this._status !== "INIT"` it returns at
once; otherwise it calls `drawer.start` (opening a session of the given
shape type) and sets `this._status = "WORKING"`. -/
def Measure._start (ty : ShapeType) (s : MeasureState) : MeasureState :=
  if s.status ≠ Status.INIT then s
  else
    { s with
      drawer :=
        { s.drawer with
          session := some ty
          startCalls := s.drawer.startCalls + 1 }
      status := Status.WORKING }

/-- `DistanceSurfaceMeasure.prototype.start`, which delegates to
`this._start('POLYLINE', ...)`. -/
def Measure.start (s : MeasureState) : MeasureState :=
  Measure._start ShapeType.POLYLINE s

/-- `Measure.prototype.end`: `this.drawer.reset(); this._labels.removeAll();
this._status = "INIT";`. -/
def Measure.«end» (s : MeasureState) : MeasureState :=
  { s with
    drawer :=
      { s.drawer with
        session := none
        resetCalls := s.drawer.resetCalls + 1 }
    labels := 0
    status := Status.INIT }

/-- `Measure.prototype.destroy`: `this.end()`, then destroy the tooltip,
remove the label collection from the scene primitives, and set
`this._status = "DESTROY"`. -/
def Measure.destroy (s : MeasureState) : MeasureState :=
  let s1 := Measure.«end» s
  { s1 with
    tooltipDestroyed := true
    labelsInScene := false
    status := Status.DESTROY }

/-- The `destroyed` getter: `this._status === "DESTROY"`. -/
def Measure.destroyed (s : MeasureState) : Bool :=
  s.status = Status.DESTROY

/-- Projection of a `MeasureState` to what the spec calls observable:
the lifecycle status, the label collection contents, and the drawing
collaborator's in-progress session. -/
structure ObservableState where
  status : Status
  labels : Nat
  session : Option ShapeType
deriving DecidableEq, Repr

/-- Observable part of a state. -/
def MeasureState.observable (s : MeasureState) : ObservableState :=
  { status := s.status, labels := s.labels, session := s.drawer.session }

/-- Cartesian2 of the rendering engine: a 2D screen (viewport) coordinate
in pixels, idealised over the reals. -/
structure Cartesian2 where
  x : ℝ
  y : ℝ

/-- Cartesian3 of the rendering engine: a 3D world-space coordinate. -/
structure Cartesian3 where
  x : ℝ
  y : ℝ
  z : ℝ

/-- Cartographic of the rendering engine: longitude/latitude/height. -/
structure Cartographic where
  longitude : ℝ
  latitude : ℝ
  height : ℝ

/-- External collaborators and configuration used by
`DistanceSurfaceMeasure`: the split count `this._splitNum`, the terrain
picker `pickCartesian3(viewer, ·)` (`none` on a pick miss),
`Cartographic.fromCartesian`, the `EllipsoidGeodesic.surfaceDistance`
between two cartographic points, and the viewport projector
`SceneTransforms.worldToWindowCoordinates(scene, ·)` (`none` when the
point is behind the camera or off-screen). -/
structure SurfaceConfig where
  splitNum : Nat
  pick : Cartesian2 → Option Cartesian3
  fromCartesian : Cartesian3 → Cartographic
  geoSurfaceDistance : Cartographic → Cartographic → ℝ
  project : Cartesian3 → Option Cartesian2

/-- `DistanceSurfaceMeasure.prototype._findWindowPositionByPixelInterval`:
returns the point of the segment at pixel distance `interval` from
`startPosition`, or `Cartesian2(0, 0)` when the segment is shorter than
`interval`. -/
noncomputable def findWindowPositionByPixelInterval
    (startPosition endPosition : Cartesian2) (interval : ℝ) : Cartesian2 :=
  let length := Real.sqrt
    ((endPosition.x - startPosition.x) ^ 2 + (endPosition.y - startPosition.y) ^ 2)
  if length < interval then ⟨0, 0⟩
  else
    ⟨interval / length * (endPosition.x - startPosition.x) + startPosition.x,
     interval / length * (endPosition.y - startPosition.y) + startPosition.y⟩

/-- Sampling loop of `_calculateSurfaceDistance`: the source computes
`interval` as
`Math.sqrt(Math.pow(endPoint.x - startPoint.x, 2) + (endPoint.y - startPoint.y, 2)) / this._splitNum`
— the second addend is a JS comma expression whose value is the literal
`2`, not the squared y-delta — then pushes `startPoint`, the points at
`ii * interval` for `ii = 1 .. splitNum`, and `endPoint`. -/
noncomputable def sampleWindowPoints
    (splitNum : Nat) (startPoint endPoint : Cartesian2) : List Cartesian2 :=
  let interval :=
    Real.sqrt ((endPoint.x - startPoint.x) ^ 2 + 2) / splitNum
  [startPoint] ++
    (List.range splitNum).map
      (fun ii =>
        findWindowPositionByPixelInterval startPoint endPoint
          ((ii + 1 : ℕ) * interval)) ++
    [endPoint]

/-- `DistanceSurfaceMeasure.prototype._calculateDetailSurfaceLength`: picks
terrain under both screen points; if both picks hit, converts them to
cartographic coordinates and combines the ellipsoidal geodesic surface
distance with the height difference, else returns the initial `0`. -/
noncomputable def calculateDetailSurfaceLength
    (cfg : SurfaceConfig) (startPoint endPoint : Cartesian2) : ℝ :=
  match cfg.pick startPoint, cfg.pick endPoint with
  | some surfaceStart, some surfaceEnd =>
    let cartographicStart := cfg.fromCartesian surfaceStart
    let cartographicEnd := cfg.fromCartesian surfaceEnd
    let innerS := cfg.geoSurfaceDistance cartographicStart cartographicEnd
    Real.sqrt (innerS ^ 2 + (cartographicStart.height - cartographicEnd.height) ^ 2)
  | _, _ => 0

/-- `DistanceSurfaceMeasure.prototype._calculateSurfaceDistance`: the loop
`for (jj = 0; jj < sampleWindowPoints.length - 1; jj += 1)` accumulating
`_calculateDetailSurfaceLength(sampleWindowPoints[jj + 1], sampleWindowPoints[jj])`. -/
noncomputable def calculateSurfaceDistance
    (cfg : SurfaceConfig) (startPoint endPoint : Cartesian2) : ℝ :=
  let pts := sampleWindowPoints cfg.splitNum startPoint endPoint
  (List.range (pts.length - 1)).foldl
    (fun resultDistance jj =>
      resultDistance +
        calculateDetailSurfaceLength cfg (pts.getD (jj + 1) ⟨0, 0⟩) (pts.getD jj ⟨0, 0⟩))
    0

/-- `DistanceSurfaceMeasure.prototype.getDistance`: projects both world
points with `SceneTransforms.worldToWindowCoordinates` under a non-null
assertion (`!`).  When a projection misses, the JS code dereferences
`undefined` and faults instead of producing a number; the embedding
returns `none` in that case and `some` of `_calculateSurfaceDistance`
otherwise. -/
noncomputable def getDistance
    (cfg : SurfaceConfig) (pos1 pos2 : Cartesian3) : Option ℝ :=
  match cfg.project pos1, cfg.project pos2 with
  | some s, some e => some (calculateSurfaceDistance cfg s e)
  | _, _ => none

/-- Concrete collaborator bundle whose viewport projector always misses
and whose terrain picker always misses. -/
noncomputable def projectMissConfig : SurfaceConfig :=
  { splitNum := 1
    pick := fun _ => none
    fromCartesian := fun _ => ⟨0, 0, 0⟩
    geoSurfaceDistance := fun _ _ => 0
    project := fun _ => none }

/-- Concrete collaborator bundle whose terrain picker always hits the
world origin, mapped to a cartographic point of height `5`, with a
constant geodesic surface distance of `3`. -/
noncomputable def flatPickConfig : SurfaceConfig :=
  { splitNum := 1
    pick := fun _ => some ⟨0, 0, 0⟩
    fromCartesian := fun _ => ⟨0, 0, 5⟩
    geoSurfaceDistance := fun _ _ => 3
    project := fun p => some ⟨p.x, p.y⟩ }

/-- C2 counterexample: starting from a freshly constructed instance, call
`destroy()` and then `end()`.  The `end()` call issues a `drawer.reset()`
(a drawing-tool call) and moves the status back to `INIT`, so the machine
does not remain in `DESTROY` and `destroyed` no longer holds. -/
theorem end_after_destroy_not_noop :
    (Measure.«end» (Measure.destroy Measure.init)).status ≠ Status.DESTROY ∧
    (Measure.«end» (Measure.destroy Measure.init)).drawer.resetCalls =
      (Measure.destroy Measure.init).drawer.resetCalls + 1 ∧
    Measure.destroyed (Measure.«end» (Measure.destroy Measure.init)) = false := by
  decide

/-- C2 (amended): after `destroy()`, a subsequent `start()` is a strict
no-op (state unchanged, so no labels and no drawing-tool calls, and the
machine stays in `DESTROY`); a subsequent `end()`, however, issues one
`drawer.reset()` call, empties the labels, and returns the machine to
`INIT`, so `destroyed` becomes false. -/
theorem after_destroy_start_noop_end_resets (s : MeasureState)
    (h : s.status = Status.DESTROY) :
    Measure.start s = s ∧
    (Measure.«end» s).status = Status.INIT ∧
    (Measure.«end» s).drawer.resetCalls = s.drawer.resetCalls + 1 ∧
    (Measure.«end» s).labels = 0 ∧
    Measure.destroyed (Measure.«end» s) = false := by
  refine ⟨?_, rfl, rfl, rfl, rfl⟩
  simp [Measure.start, Measure._start, h]

/-- C2 witness: the amended statement instantiated at the state reached by
`destroy()` from the constructor state. -/
theorem after_destroy_start_noop_end_resets_witness :
    Measure.start (Measure.destroy Measure.init) = Measure.destroy Measure.init ∧
    (Measure.«end» (Measure.destroy Measure.init)).status = Status.INIT ∧
    (Measure.«end» (Measure.destroy Measure.init)).drawer.resetCalls =
      (Measure.destroy Measure.init).drawer.resetCalls + 1 ∧
    (Measure.«end» (Measure.destroy Measure.init)).labels = 0 ∧
    Measure.destroyed (Measure.«end» (Measure.destroy Measure.init)) = false :=
  after_destroy_start_noop_end_resets (Measure.destroy Measure.init) (by decide)

/-- C8: `start()` is valid only from `INIT`: from any other status it
returns the state unchanged (no label change, no drawing-tool call), and
for any state in `INIT`, calling `start()` twice equals calling it once —
the machine is in `WORKING` with exactly one more drawing session opened. -/
theorem start_only_from_init (s : MeasureState) (h : s.status ≠ Status.INIT) :
    Measure.start s = s ∧
    ∀ t : MeasureState, t.status = Status.INIT →
      Measure.start (Measure.start t) = Measure.start t ∧
      (Measure.start t).status = Status.WORKING ∧
      (Measure.start t).drawer.startCalls = t.drawer.startCalls + 1 := by
  constructor
  · simp [Measure.start, Measure._start, h]
  · intro t ht
    refine ⟨?_, ?_, ?_⟩
    · simp [Measure.start, Measure._start, ht]
    · simp [Measure.start, Measure._start, ht]
    · simp [Measure.start, Measure._start, ht]

/-- C8 witness: instantiated at the `WORKING` state reached by one
`start()` from the constructor state, and at the constructor state for the
double-`start` part. -/
theorem start_only_from_init_witness :
    Measure.start (Measure.start Measure.init) = Measure.start Measure.init ∧
    (Measure.start Measure.init).status = Status.WORKING :=
  by
    have h := start_only_from_init (Measure.start Measure.init) (by decide)
    exact ⟨h.1, ((h.2 Measure.init (by decide)).2).1⟩

/-- C9: `end()` clears the drawing tool's in-progress session, removes all
labels, and returns the machine to `INIT`; and it is idempotent on the
observable state: a second `end()` changes nothing observable. -/
theorem end_clears_and_idempotent (s : MeasureState) :
    (Measure.«end» s).drawer.session = none ∧
    (Measure.«end» s).labels = 0 ∧
    (Measure.«end» s).status = Status.INIT ∧
    (Measure.«end» (Measure.«end» s)).observable = (Measure.«end» s).observable := by
  refine ⟨rfl, rfl, rfl, rfl⟩

/-- Helper: a left fold accumulating `+ g j` equals the initial value plus
the sum of the mapped list. -/
lemma foldl_add_eq_init_add_sum (g : ℕ → ℝ) (l : List ℕ) (init : ℝ) :
    l.foldl (fun a j => a + g j) init = init + (l.map g).sum := by
  induction l generalizing init with
  | nil => simp
  | cons x xs ih => rw [List.foldl_cons, ih, List.map_cons, List.sum_cons]; ring

/-- Helper: the index loop over `0 .. length - 2` pairing `pts[jj+1]` with
`pts[jj]` enumerates exactly the consecutive pairs `pts.zip pts.tail`. -/
lemma range_pairs_eq_zip (f : Cartesian2 → Cartesian2 → ℝ) (pts : List Cartesian2) :
    (List.range (pts.length - 1)).map
      (fun jj => f (pts.getD (jj + 1) ⟨0, 0⟩) (pts.getD jj ⟨0, 0⟩)) =
    (pts.zip pts.tail).map (fun pq => f pq.2 pq.1) := by
  apply List.ext_getElem
  · simp
  · intro i h1 h2
    have hi : i < pts.length - 1 := by simpa using h1
    have hi1 : i + 1 < pts.length := by omega
    have hi0 : i < pts.length := by omega
    simp [List.getElem_zip, List.getElem_tail, List.getD_eq_getElem, hi, hi0, hi1]

/-- Helper: evaluation of the sampling loop on identical endpoints
`(1, 1)`: the interval is `√2 / 1 > 0` (the comma slip makes it nonzero),
the segment length is `0 < √2`, so the single interior sample collapses to
the origin. -/
lemma sample_self_eval :
    sampleWindowPoints 1 ⟨1, 1⟩ ⟨1, 1⟩ = [⟨1, 1⟩, ⟨0, 0⟩, ⟨1, 1⟩] := by
  have h2 : (0 : ℝ) < Real.sqrt 2 := Real.sqrt_pos.mpr (by norm_num)
  unfold sampleWindowPoints findWindowPositionByPixelInterval
  norm_num [List.range_succ, Real.sqrt_zero, h2]

/-- C5: if the terrain pick for either endpoint of a sampled segment
misses, `_calculateDetailSurfaceLength` returns its initial `0`, so the
segment contributes exactly zero to the accumulated total, and no error is
raised. -/
theorem detail_zero_on_pick_miss (cfg : SurfaceConfig) (a b : Cartesian2)
    (h : cfg.pick a = none ∨ cfg.pick b = none) :
    calculateDetailSurfaceLength cfg a b = 0 := by
  rcases h with h | h
  · cases hb : cfg.pick b <;> simp [calculateDetailSurfaceLength, h, hb]
  · cases ha : cfg.pick a <;> simp [calculateDetailSurfaceLength, h, ha]

/-- C5 witness: with an always-missing picker the segment length is 0. -/
theorem detail_zero_on_pick_miss_witness :
    calculateDetailSurfaceLength projectMissConfig ⟨0, 0⟩ ⟨1, 1⟩ = 0 :=
  detail_zero_on_pick_miss projectMissConfig ⟨0, 0⟩ ⟨1, 1⟩ (Or.inl rfl)

/-- C4 counterexample: with a projector that misses, `getDistance` yields
no number at all (the JS non-null assertion dereferences `undefined` and
faults) — contradicting the claim that a projection miss still produces a
finite numeric result. -/
theorem getDistance_projection_miss_faults :
    getDistance projectMissConfig ⟨0, 0, 0⟩ ⟨1, 0, 0⟩ = none := rfl

/-- C4 (amended): only terrain-pick misses are absorbed as
zero-contribution samples; a projection miss on either endpoint is not
absorbed — `getDistance` faults (returns no number) in that case. -/
theorem getDistance_faults_on_projection_miss (cfg : SurfaceConfig)
    (pos1 pos2 : Cartesian3)
    (h : cfg.project pos1 = none ∨ cfg.project pos2 = none) :
    getDistance cfg pos1 pos2 = none := by
  rcases h with h | h
  · cases h2 : cfg.project pos2 <;> simp [getDistance, h, h2]
  · cases h1 : cfg.project pos1 <;> simp [getDistance, h, h1]

/-- C4 witness: the amended statement at a concrete missing projector. -/
theorem getDistance_faults_on_projection_miss_witness :
    getDistance projectMissConfig ⟨0, 0, 0⟩ ⟨0, 0, 1⟩ = none :=
  getDistance_faults_on_projection_miss projectMissConfig ⟨0, 0, 0⟩ ⟨0, 0, 1⟩
    (Or.inl rfl)

/-- C7: when both picks succeed and the collaborator's geodesic surface
distance is nonnegative, the per-segment slant distance is at least the
geodesic surface distance, with equality iff the picked heights agree. -/
theorem slant_ge_geodesic (cfg : SurfaceConfig) (p q : Cartesian2)
    (sa sb : Cartesian3) (hp : cfg.pick p = some sa) (hq : cfg.pick q = some sb)
    (hgeo : 0 ≤ cfg.geoSurfaceDistance (cfg.fromCartesian sa) (cfg.fromCartesian sb)) :
    cfg.geoSurfaceDistance (cfg.fromCartesian sa) (cfg.fromCartesian sb) ≤
      calculateDetailSurfaceLength cfg p q ∧
    (calculateDetailSurfaceLength cfg p q =
        cfg.geoSurfaceDistance (cfg.fromCartesian sa) (cfg.fromCartesian sb) ↔
      (cfg.fromCartesian sa).height = (cfg.fromCartesian sb).height) := by
  have hd : calculateDetailSurfaceLength cfg p q =
      Real.sqrt (cfg.geoSurfaceDistance (cfg.fromCartesian sa) (cfg.fromCartesian sb) ^ 2 +
        ((cfg.fromCartesian sa).height - (cfg.fromCartesian sb).height) ^ 2) := by
    simp [calculateDetailSurfaceLength, hp, hq]
  rw [hd]
  set g := cfg.geoSurfaceDistance (cfg.fromCartesian sa) (cfg.fromCartesian sb) with hg
  set dh := (cfg.fromCartesian sa).height - (cfg.fromCartesian sb).height with hdh
  constructor
  · rw [Real.le_sqrt hgeo (by positivity)]
    nlinarith [sq_nonneg dh]
  · rw [Real.sqrt_eq_iff_eq_sq (by positivity) hgeo]
    constructor
    · intro h
      have hdh0 : dh ^ 2 = 0 := by nlinarith
      have : dh = 0 := by
        have := sq_eq_zero_iff.mp hdh0
        exact this
      exact sub_eq_zero.mp (hdh ▸ this)
    · intro h
      have : dh = 0 := by rw [hdh]; exact sub_eq_zero.mpr h
      rw [this]; ring

/-- C7 witness: with the flat collaborator bundle (both picks at the same
cartographic point, geodesic distance 3) the slant distance is at least 3. -/
theorem slant_ge_geodesic_witness :
    flatPickConfig.geoSurfaceDistance (flatPickConfig.fromCartesian ⟨0, 0, 0⟩)
        (flatPickConfig.fromCartesian ⟨0, 0, 0⟩) ≤
      calculateDetailSurfaceLength flatPickConfig ⟨0, 0⟩ ⟨1, 1⟩ :=
  (slant_ge_geodesic flatPickConfig ⟨0, 0⟩ ⟨1, 1⟩ ⟨0, 0, 0⟩ ⟨0, 0, 0⟩ rfl rfl
    (by norm_num [flatPickConfig])).1

/-- C10: whenever the requested pixel interval exceeds the Euclidean pixel
distance between the endpoints, `_findWindowPositionByPixelInterval`
returns the viewport origin `(0, 0)`; and such collapsed `(0, 0)` samples
do occur among the points fed to terrain picking inside
`_calculateSurfaceDistance` (here: identical endpoints `(1, 1)`). -/
theorem interval_beyond_length_returns_origin (s e : Cartesian2) (interval : ℝ)
    (h : Real.sqrt ((e.x - s.x) ^ 2 + (e.y - s.y) ^ 2) < interval) :
    findWindowPositionByPixelInterval s e interval = ⟨0, 0⟩ ∧
    Cartesian2.mk 0 0 ∈ sampleWindowPoints 1 ⟨1, 1⟩ ⟨1, 1⟩ := by
  constructor
  · unfold findWindowPositionByPixelInterval
    simp [h]
  · rw [sample_self_eval]
    simp

/-- C10 witness: segment from `(0,0)` to `(0,1)` has pixel length 1; the
requested interval 2 exceeds it and the sampler returns the origin. -/
theorem interval_beyond_length_returns_origin_witness :
    findWindowPositionByPixelInterval ⟨0, 0⟩ ⟨0, 1⟩ 2 = ⟨0, 0⟩ :=
  (interval_beyond_length_returns_origin ⟨0, 0⟩ ⟨0, 1⟩ 2
    (by norm_num [Real.sqrt_one])).1

/-- C3 (code bug): sampling between identical endpoints `(1, 1)` does not
return points all equal to `(1, 1)`: the comma-slip interval is `√2 > 0`
while the segment length is `0`, so the interior sample collapses to the
origin `(0, 0) ≠ (1, 1)`.  The `count = 0` half of the claim does hold:
the result is exactly `[p0, p1]`. -/
theorem sample_identical_endpoints_not_constant :
    sampleWindowPoints 1 ⟨1, 1⟩ ⟨1, 1⟩ = [⟨1, 1⟩, ⟨0, 0⟩, ⟨1, 1⟩] ∧
    Cartesian2.mk 0 0 ≠ Cartesian2.mk 1 1 ∧
    sampleWindowPoints 0 ⟨5, 7⟩ ⟨2, 3⟩ = [⟨5, 7⟩, ⟨2, 3⟩] := by
  refine ⟨sample_self_eval, ?_, ?_⟩
  · intro h
    have hx := congrArg Cartesian2.x h
    norm_num at hx
  · simp [sampleWindowPoints]

/-- C1 (code bug): with `splitNum = 2` and endpoints `(0, 0)`, `(3, 4)`
(Euclidean pixel distance 5), the sample sequence does have `2 + 2`
points, but the comma slip computes the step as `√(dx² + 2) / n = √11 / 2`
instead of `√(dx² + dy²) / n = 5 / 2`, so the first interior point sits at
x-coordinate `3√11/10 ≈ 0.995`, not at the claimed fraction `1/2` of the
segment (x-coordinate `3/2`). -/
theorem sample_spacing_comma_slip :
    (sampleWindowPoints 2 ⟨0, 0⟩ ⟨3, 4⟩).length = 2 + 2 ∧
    (sampleWindowPoints 2 ⟨0, 0⟩ ⟨3, 4⟩).getD 1 ⟨0, 0⟩ =
      ⟨3 * Real.sqrt 11 / 10, 4 * Real.sqrt 11 / 10⟩ ∧
    3 * Real.sqrt 11 / 10 ≠ 3 / 2 := by
  have hs2 : Real.sqrt 11 ^ 2 = 11 := Real.sq_sqrt (by norm_num)
  have hsnn : (0 : ℝ) ≤ Real.sqrt 11 := Real.sqrt_nonneg 11
  have hs4 : Real.sqrt 11 ≤ 4 := by nlinarith
  have h25 : Real.sqrt (25 : ℝ) = 5 := by
    rw [show (25 : ℝ) = 5 ^ 2 by norm_num]
    exact Real.sqrt_sq (by norm_num)
  have hngt : ¬ ((5 : ℝ) < Real.sqrt 11 / 2) := by nlinarith
  refine ⟨by simp [sampleWindowPoints], ?_, ?_⟩
  · unfold sampleWindowPoints findWindowPositionByPixelInterval
    rw [show List.range 2 = [0, 1] from rfl]
    simp only [List.map_cons, List.map_nil, List.cons_append, List.nil_append,
      List.getD_cons_succ, List.getD_cons_zero]
    norm_num [h25, hngt]
    constructor <;> ring
  · intro h
    nlinarith

/-- C6: when both terrain picks of a segment succeed, the per-segment
length is the Pythagorean combination of the ellipsoidal geodesic surface
distance and the height difference, and the total surface distance is the
sum of the per-segment lengths over all consecutive sample pairs. -/
theorem surface_distance_sum_of_slants (cfg : SurfaceConfig)
    (a b : Cartesian2) (sa sb : Cartesian3)
    (ha : cfg.pick a = some sa) (hb : cfg.pick b = some sb)
    (p0 p1 : Cartesian2) :
    calculateDetailSurfaceLength cfg a b =
      Real.sqrt (cfg.geoSurfaceDistance (cfg.fromCartesian sa) (cfg.fromCartesian sb) ^ 2 +
        ((cfg.fromCartesian sa).height - (cfg.fromCartesian sb).height) ^ 2) ∧
    calculateSurfaceDistance cfg p0 p1 =
      (((sampleWindowPoints cfg.splitNum p0 p1).zip
          (sampleWindowPoints cfg.splitNum p0 p1).tail).map
        (fun pq => calculateDetailSurfaceLength cfg pq.2 pq.1)).sum := by
  constructor
  · simp [calculateDetailSurfaceLength, ha, hb]
  · simp only [calculateSurfaceDistance]
    rw [foldl_add_eq_init_add_sum
        (fun jj =>
          calculateDetailSurfaceLength cfg
            ((sampleWindowPoints cfg.splitNum p0 p1).getD (jj + 1) ⟨0, 0⟩)
            ((sampleWindowPoints cfg.splitNum p0 p1).getD jj ⟨0, 0⟩)),
      zero_add,
      range_pairs_eq_zip (fun x y => calculateDetailSurfaceLength cfg x y)
        (sampleWindowPoints cfg.splitNum p0 p1)]

/-- C6 witness: the per-segment formula instantiated at the flat
collaborator bundle. -/
theorem surface_distance_sum_of_slants_witness :
    calculateDetailSurfaceLength flatPickConfig ⟨0, 0⟩ ⟨3, 4⟩ =
      Real.sqrt
        (flatPickConfig.geoSurfaceDistance (flatPickConfig.fromCartesian ⟨0, 0, 0⟩)
            (flatPickConfig.fromCartesian ⟨0, 0, 0⟩) ^ 2 +
          ((flatPickConfig.fromCartesian ⟨0, 0, 0⟩).height -
              (flatPickConfig.fromCartesian ⟨0, 0, 0⟩).height) ^ 2) :=
  (surface_distance_sum_of_slants flatPickConfig ⟨0, 0⟩ ⟨3, 4⟩ ⟨0, 0, 0⟩ ⟨0, 0, 0⟩
    rfl rfl ⟨0, 0⟩ ⟨1, 1⟩).1

end CesiumMeasure
